import Mathlib

/-!
Verification of the AI decision and predictive-targeting controller of the
space-impact repository (`src/strategy.py`, `src/ship.py`).

Modelling conventions, used throughout:

* pygame `Rect` coordinates are integers; a `Rect` is modelled by its
  `x`, `y` (top-left corner), width `w` and height `h`, all `ℤ`, with
  `centerx = x + w / 2`, `centery = y + h / 2` (pygame computes centers with
  integer floor division; all widths/heights are nonnegative),
  `left = x`, `right = x + w`, `top = y`.
* Python floats are idealised as exact rationals `ℚ`.  Every game entity in the
  repository (`Alien`, `Boss`, `BossBullet`, `Powerup`, `Ship`) carries a
  `rect` attribute, so the duck-typed `hasattr(obj, 'rect')` fallbacks in
  `strategy.py` always take the `rect` branch; entities are therefore modelled
  with a `rect` field.  `hasattr(target, 'is_boss') and target.is_boss`
  collapses to a boolean field that defaults to `false`, and an optional
  `velocity` tuple is an `Option (ℚ × ℚ)` (absent ⇒ treated as `(0, 0)`, as in
  the source).
* `math.sqrt` yields irrational values, but every comparison the code makes
  with a distance (`< 150`, `<= 1500`, `< 120`, sorting candidate lists by
  distance or by `distance * factor` with a nonnegative factor) is invariant
  under squaring, because `Real.sqrt` is monotone on nonnegative inputs.  The
  embedding therefore compares squared distances against squared thresholds
  and sorts by squared scores (`(d * f)^2 = d^2 * f^2`).  The one place where
  the numeric value of a square root flows into an output —
  `predict_target_position`'s `time_to_target = distance / projectile_speed` —
  takes the computed distance as an explicit parameter `dist`; theorems
  quantify over it, so they hold in particular at `dist = √(distance_sq …)`.
* Python's `list.sort` is stable, so `sorted[0]` is the first element of the
  original list attaining the minimal key.  `firstMinBy` reproduces exactly
  that element.
* Assigning a float to an integer `Rect` field truncates toward zero in
  pygame, modelled by `truncQ`.
-/

namespace SpaceImpact

/-- A pygame rectangle: integer top-left corner plus integer size. -/
structure Rect where
  x : ℤ
  y : ℤ
  w : ℤ
  h : ℤ
deriving DecidableEq

/-- pygame `rect.centerx = x + w // 2`. -/
def Rect.centerx (r : Rect) : ℤ := r.x + r.w / 2

/-- pygame `rect.centery = y + h // 2`. -/
def Rect.centery (r : Rect) : ℤ := r.y + r.h / 2

/-- pygame `rect.left`. -/
def Rect.leftEdge (r : Rect) : ℤ := r.x

/-- pygame `rect.right = x + w`. -/
def Rect.rightEdge (r : Rect) : ℤ := r.x + r.w

/-- A game entity as seen by the strategy code: a rectangle, an optional
velocity tuple, the `is_boss` discriminator (absent attribute ⇒ `false`) and
the optional powerup `type` string. -/
structure Entity where
  rect : Rect
  vel : Option (ℚ × ℚ) := none
  is_boss : Bool := false
  ptype : Option String := none
deriving DecidableEq

/-- The AI ship state read and written by `Ship.update_ai` (src/ship.py).
`screen_w`/`screen_h` are `self.screen.get_size()`; `ai_ship_speed` and
`bullet_speed` are the fields initialised from `Settings`. -/
structure Ship where
  rect : Rect
  screen_w : ℤ
  screen_h : ℤ
  ai_ship_speed : ℚ
  bullet_speed : ℚ
  ai_state : String
  current_target : Option Entity
  boss_engaged : Bool
deriving DecidableEq

/-- Squared Euclidean distance between two integer points. -/
def distSqPt (p q : ℤ × ℤ) : ℤ := (p.1 - q.1) ^ 2 + (p.2 - q.2) ^ 2

/-- Center of a rectangle. -/
def Rect.center (r : Rect) : ℤ × ℤ := (r.centerx, r.centery)

/-- Squared version of `_distance` (src/strategy.py lines 515-538 and
698-708): both strategies compute `sqrt((x1-x2)^2 + (y1-y2)^2)` between the
two entities' rect centers; the embedding keeps the square. -/
def distance_sq (a b : Rect) : ℤ := distSqPt a.center b.center

/-- Clamping of a velocity to `[-cap, cap]`, written in the source as
`if v > cap: v = cap elif v < -cap: v = -cap`. -/
def clampQ (v cap : ℚ) : ℚ := if v > cap then cap else if v < -cap then -cap else v

/-- First element of the list attaining the minimal key: the element that
Python's stable `sort(key=...)` followed by `[0]` returns. -/
def firstMinBy {α β : Type} [LinearOrder β] (key : α → β) : List α → Option α
  | [] => none
  | x :: xs => some (xs.foldl (fun b a => if key a < key b then a else b) x)

/-- Truncation toward zero, as pygame applies when a float is assigned to an
integer `Rect` coordinate. -/
def truncQ (q : ℚ) : ℤ := if q < 0 then -⌊-q⌋ else ⌊q⌋

/-- The danger-zone test of `_find_dangerous_bullet` (src/strategy.py lines
157-160 and 836-839): the bullet is strictly ahead of the ship's center,
within 250 pixels horizontally, and within `max(70, ship_height * 1.5)`
vertically.  The vertical comparison
`abs(bullet_y - ship_y) < max(70, ship_height * 1.5)` is doubled on both
sides to stay in integers. -/
def bulletDangerous (ship : Ship) (b : Entity) : Prop :=
  b.rect.centerx > ship.rect.centerx ∧
  b.rect.centerx - ship.rect.centerx < 250 ∧
  2 * |b.rect.centery - ship.rect.centery| < max 140 (3 * ship.rect.h)

instance (ship : Ship) (b : Entity) : Decidable (bulletDangerous ship b) := by
  unfold bulletDangerous; infer_instance

/-- The collision-course test inside `_find_dangerous_bullet` (src/strategy.py
lines 164-173): for a bullet with nonzero vertical and horizontal velocity
whose time to reach the ship's x is positive, project its y there and compare
with the ship's height.  When `bullet_vel_x = 0` the source computes
`time_to_reach_ship_x = inf`, `projected_y = ±inf`, and the proximity test is
false, so the factor stays 1 — hence the `bvx ≠ 0` conjunct. -/
def bulletCollisionCourse (ship : Ship) (b : Entity) : Prop :=
  let v := b.vel.getD (0, 0)
  v.2 ≠ 0 ∧ v.1 ≠ 0 ∧
  ((ship.rect.centerx : ℚ) - (b.rect.centerx : ℚ)) / v.1 > 0 ∧
  |(b.rect.centery : ℚ) +
      v.2 * (((ship.rect.centerx : ℚ) - (b.rect.centerx : ℚ)) / v.1) -
      (ship.rect.centery : ℚ)| < (ship.rect.h : ℚ)

instance (ship : Ship) (b : Entity) : Decidable (bulletCollisionCourse ship b) := by
  unfold bulletCollisionCourse; infer_instance

/-- Danger score of a qualifying bullet, order-isomorphic to the source's
`distance * trajectory_factor` with `trajectory_factor ∈ {0.5, 1}`
(src/strategy.py lines 161-175): squaring gives factors `{1/4, 1}`, and
scaling by 4 gives the integer factors `{1, 4}`. -/
def bulletScore (ship : Ship) (b : Entity) : ℤ :=
  distance_sq ship.rect b.rect *
    (if bulletCollisionCourse ship b then 1 else 4)

/-- `_find_dangerous_bullet` (src/strategy.py lines 100-183, identical copy at
779-862): filter bullets by the danger zone, then return the first
minimal-score bullet, or `none`.  The local `time_to_collision` computed at
lines 146-155 is never used and is omitted. -/
def find_dangerous_bullet (ship : Ship) (bullets : List Entity) : Option Entity :=
  firstMinBy (bulletScore ship)
    (bullets.filter fun b => decide (bulletDangerous ship b))

/-- The proximity test of `_find_dangerous_enemy` (src/strategy.py lines
203-208 and 882-887): `alien.rect.left - ship.rect.right < 70` (note: no lower
bound, so enemies behind the ship also qualify) and the centers within 50
vertically. -/
def enemyDangerous (ship : Ship) (a : Entity) : Prop :=
  a.rect.leftEdge - ship.rect.rightEdge < 70 ∧
  |a.rect.centery - ship.rect.centery| < 50

instance (ship : Ship) (a : Entity) : Decidable (enemyDangerous ship a) := by
  unfold enemyDangerous; infer_instance

/-- `_find_dangerous_enemy` (src/strategy.py lines 185-214, identical copy at
864-893): nearest qualifying alien by distance, or `none`. -/
def find_dangerous_enemy (ship : Ship) (aliens : List Entity) : Option Entity :=
  firstMinBy (fun a => distance_sq ship.rect a.rect)
    (aliens.filter fun a => decide (enemyDangerous ship a))

/-- `_is_ahead` (src/strategy.py lines 280-303 and 959-982). -/
def is_ahead (ship : Ship) (e : Entity) : Bool :=
  decide (e.rect.centerx > ship.rect.centerx)

/-- `_find_nearest_powerup` (src/strategy.py lines 216-250, identical copy at
895-929): partition into powerups ahead of the ship and the rest; if any is
ahead return the nearest ahead one, else the nearest of the rest. -/
def find_nearest_powerup (ship : Ship) (powerups : List Entity) : Option Entity :=
  let parts := powerups.partition (is_ahead ship)
  match firstMinBy (fun p => distance_sq ship.rect p.rect) parts.1 with
  | some p => some p
  | none => firstMinBy (fun p => distance_sq ship.rect p.rect) parts.2

/-- `_find_high_value_powerup` (src/strategy.py lines 252-278 and 931-957):
nearest powerup with distance < 150 (squared: `< 22500`). -/
def find_high_value_powerup (ship : Ship) (powerups : List Entity) : Option Entity :=
  firstMinBy (fun p => distance_sq ship.rect p.rect)
    (powerups.filter fun p => decide (distance_sq ship.rect p.rect < 22500))

/-- `_is_easily_reachable` (src/strategy.py lines 305-330 and 984-1009):
distance < 120 (squared: `< 14400`) and vertical offset < 60. -/
def is_easily_reachable (ship : Ship) (e : Entity) : Bool :=
  decide (distance_sq ship.rect e.rect < 14400 ∧
    |ship.rect.centery - e.rect.centery| < 60)

/-- `_find_nearest_alien` (src/strategy.py lines 332-380, identical copy at
1011-1058): every alien is scored by `distance * (0.7 if ahead else 1.5)`;
squaring gives the factors `0.49` and `2.25`, and scaling by 100 the integer
factors `49` and `225`. -/
def find_nearest_alien (ship : Ship) (aliens : List Entity) : Option Entity :=
  firstMinBy
    (fun a => distance_sq ship.rect a.rect *
      (if a.rect.centerx > ship.rect.centerx then 49 else 225))
    aliens

namespace Aggressive

/-- `AggressiveStrategy.select_target` (src/strategy.py lines 41-98):
dangerous bullet → dodge; dangerous enemy → dodge; boss present → reachable
high-value powerup or the boss; nearest powerup; nearest alien; patrol. -/
def select_target (ship : Ship) (aliens : List Entity) (boss : Option Entity)
    (powerups : List Entity) (boss_bullets : List Entity) :
    String × Option Entity :=
  match (if boss_bullets.isEmpty then none
         else find_dangerous_bullet ship boss_bullets) with
  | some b => ("dodge", some b)
  | none =>
    match find_dangerous_enemy ship aliens with
    | some e => ("dodge", some e)
    | none =>
      match boss with
      | some bo =>
        (match find_high_value_powerup ship powerups with
         | some p =>
            if is_easily_reachable ship p then ("target_powerup", some p)
            else ("target_boss", some bo)
         | none => ("target_boss", some bo))
      | none =>
        match (if powerups.isEmpty then none
               else find_nearest_powerup ship powerups) with
        | some p => ("target_powerup", some p)
        | none =>
          match (if aliens.isEmpty then none
                 else find_nearest_alien ship aliens) with
          | some a => ("target_alien", some a)
          | none => ("patrol", none)

end Aggressive

namespace Enhanced

/-- `EnhancedAIStrategy._filter_within_range` (src/strategy.py lines 557-572)
at the default `max_range = 1500` used by `select_target`
(squared: `≤ 2250000`). -/
def filter_within_range (ship : Ship) (objects : List Entity) : List Entity :=
  objects.filter fun o => decide (distance_sq ship.rect o.rect ≤ 2250000)

/-- `EnhancedAIStrategy._is_threatening` (src/strategy.py lines 574-589):
distance < 150 (squared: `< 22500`). -/
def is_threatening (ship : Ship) (o : Entity) : Bool :=
  decide (distance_sq ship.rect o.rect < 22500)

/-- `EnhancedAIStrategy._find_high_value_offensive_powerup` (src/strategy.py
lines 591-620): nearest powerup whose `type` is `green` or `orange` and whose
distance is < 150. -/
def find_high_value_offensive_powerup (ship : Ship) (powerups : List Entity) :
    Option Entity :=
  firstMinBy (fun p => distance_sq ship.rect p.rect)
    (powerups.filter fun p =>
      decide ((p.ptype = some "green" ∨ p.ptype = some "orange") ∧
        distance_sq ship.rect p.rect < 22500))

/-- The dodge-bullet gate of `EnhancedAIStrategy.select_target`
(src/strategy.py lines 654-658): `some b` exactly when the filtered bullet
list is nonempty, `_find_dangerous_bullet` returns `b` and `b` is threatening
(within 150 units). -/
def dodge_bullet_gate (ship : Ship) (fbullets : List Entity) : Option Entity :=
  if fbullets.isEmpty then none
  else
    match find_dangerous_bullet ship fbullets with
    | some b => if is_threatening ship b then some b else none
    | none => none

/-- The dodge-enemy gate of `EnhancedAIStrategy.select_target`
(src/strategy.py lines 660-664). -/
def dodge_enemy_gate (ship : Ship) (faliens : List Entity) : Option Entity :=
  if faliens.isEmpty then none
  else
    match find_dangerous_enemy ship faliens with
    | some e => if is_threatening ship e then some e else none
    | none => none

/-- `EnhancedAIStrategy.select_target` (src/strategy.py lines 622-696):
filter everything to the 1500-unit perception range, then dodge threatening
bullets/enemies, then boss (with offensive-powerup check), then powerups,
then aliens, then patrol. -/
def select_target (ship : Ship) (aliens : List Entity) (boss : Option Entity)
    (powerups : List Entity) (boss_bullets : List Entity) :
    String × Option Entity :=
  let faliens := filter_within_range ship aliens
  let fpowerups := filter_within_range ship powerups
  let fbullets := filter_within_range ship boss_bullets
  let fboss : Option Entity :=
    match boss with
    | some b => if distance_sq ship.rect b.rect ≤ 2250000 then some b else none
    | none => none
  match dodge_bullet_gate ship fbullets with
  | some b => ("dodge", some b)
  | none =>
    match dodge_enemy_gate ship faliens with
    | some e => ("dodge", some e)
    | none =>
      match fboss with
      | some bo =>
        (match (if fpowerups.isEmpty then none
                else find_high_value_offensive_powerup ship fpowerups) with
         | some p =>
            if is_easily_reachable ship p then ("target_powerup", some p)
            else ("target_boss", some bo)
         | none => ("target_boss", some bo))
      | none =>
        match (if fpowerups.isEmpty then none
               else find_nearest_powerup ship fpowerups) with
        | some p => ("target_powerup", some p)
        | none =>
          match (if faliens.isEmpty then none
                 else find_nearest_alien ship faliens) with
          | some a => ("target_alien", some a)
          | none => ("patrol", none)

end Enhanced

/-- `predict_target_position` (src/strategy.py lines 710-775; the two copies
inside `AggressiveStrategy`, lines 382-447 and 449-513, are textually
identical).  `shooter` is the optional `ship` argument, of which only
`rect.centerx/centery` are read; `dist` stands for the value
`math.sqrt((current_x - ship_x)^2 + (current_y - ship_y)^2)` computed at line
748, passed as a parameter because it is irrational over `ℚ` (theorems
quantify over it).  The boss-pattern augmentation block (lines 760-773) is
unreachable — it is guarded by `is_boss`, but such targets already returned at
line 723 — and is omitted. -/
def predict_target_position (target : Entity) (projectile_speed : ℚ)
    (shooter : Option Rect) (dist : ℚ) : ℚ × ℚ :=
  if target.is_boss then
    ((target.rect.centerx : ℚ), (target.rect.centery : ℚ))
  else
    let v := target.vel.getD (0, 0)
    let time_to_target : ℚ :=
      match shooter with
      | some _ => if projectile_speed > 0 then dist / projectile_speed else 0
      | none => 1 / 2
    ((target.rect.centerx : ℚ) + v.1 * time_to_target,
     (target.rect.centery : ℚ) + v.2 * time_to_target)

/-- The `state_mapping` dictionary of `Ship.update_ai` (src/ship.py lines
95-104), with the `.get(action, 'patrol')` default. -/
def state_mapping (action : String) : String :=
  if action = "dodge" then "dodge"
  else if action = "target_boss" then "engage_boss"
  else if action = "target_alien" then "engage_enemy"
  else if action = "target_powerup" then "collect_powerup"
  else if action = "patrol" then "patrol"
  else "patrol"

/-- STEP 1 of `Ship.update_ai` (src/ship.py lines 91-114): ask the ship's
strategy (an `EnhancedAIStrategy`, src/ship.py line 17) for an action, map it
to the state machine's labels, and — if a boss is present and the state is not
`dodge` — override the decision with `('engage_boss', boss)`. -/
def ai_decision (ship : Ship) (aliens : List Entity) (boss_bullets : List Entity)
    (boss : Option Entity) (powerups : List Entity) : String × Option Entity :=
  let st := Enhanced.select_target ship aliens boss powerups boss_bullets
  let new_state := state_mapping st.1
  match boss with
  | some bo => if new_state ≠ "dodge" then ("engage_boss", some bo) else (new_state, st.2)
  | none => (new_state, st.2)

/-- Dodge-state velocity (src/ship.py lines 130-152): if the vertical offset
to the bullet is small (< 30), force a fixed ±50 dodge (upward when
`rect.top > max_dodge_speed * 2`); velocity is `-diff * 0.5` clamped to the
dodge cap `2 * ai_ship_speed`. -/
def dodge_velocity (ship : Ship) (target : Entity) : ℚ :=
  let max_dodge_speed := ship.ai_ship_speed * 2
  let diff0 : ℚ := (ship.rect.centery : ℚ) - (target.rect.centery : ℚ)
  let diff : ℚ :=
    if |diff0| < 30 then
      (if (ship.rect.y : ℚ) > max_dodge_speed * 2 then -50 else 50)
    else diff0
  clampQ (-diff * (1 / 2)) max_dodge_speed

/-- Offset used by the engage-boss state (src/ship.py lines 160-163): the
predicted y of the target minus the ship's center y. -/
def boss_offset (ship : Ship) (target : Entity) (dist : ℚ) : ℚ :=
  (predict_target_position target ship.bullet_speed (some ship.rect) dist).2 -
    (ship.rect.centery : ℚ)

/-- Engage-boss velocity (src/ship.py lines 154-178): dead zone 5, gain 0.65,
cap `2.5 * ai_ship_speed`. -/
def boss_velocity (ship : Ship) (target : Entity) (dist : ℚ) : ℚ :=
  if |boss_offset ship target dist| > 5 then
    clampQ (boss_offset ship target dist * (13 / 20)) (ship.ai_ship_speed * (5 / 2))
  else 0

/-- Offset used by the collect-powerup and engage-enemy states (src/ship.py
lines 182-185 and 204-207): target center y minus ship center y. -/
def target_offset (ship : Ship) (target : Entity) : ℚ :=
  (target.rect.centery : ℚ) - (ship.rect.centery : ℚ)

/-- Collect-powerup velocity (src/ship.py lines 180-200): dead zone 10, gain
0.55, cap `1.5 * ai_ship_speed`. -/
def powerup_velocity (ship : Ship) (target : Entity) : ℚ :=
  if |target_offset ship target| > 10 then
    clampQ (target_offset ship target * (11 / 20)) (ship.ai_ship_speed * (3 / 2))
  else 0

/-- Engage-enemy velocity (src/ship.py lines 202-219): dead zone 15, gain
0.45, cap `ai_ship_speed`. -/
def enemy_velocity (ship : Ship) (target : Entity) : ℚ :=
  if |target_offset ship target| > 15 then
    clampQ (target_offset ship target * (9 / 20)) ship.ai_ship_speed
  else 0

/-- Offset used by the patrol state (src/ship.py lines 222-224): screen
vertical midpoint minus ship center y. -/
def patrol_offset (ship : Ship) : ℚ :=
  (ship.screen_h : ℚ) * (1 / 2) - (ship.rect.centery : ℚ)

/-- Patrol velocity (src/ship.py lines 221-236): dead zone 15, gain 0.15, cap
`0.6 * ai_ship_speed`. -/
def patrol_velocity (ship : Ship) : ℚ :=
  if |patrol_offset ship| > 15 then
    clampQ (patrol_offset ship * (3 / 20)) (ship.ai_ship_speed * (3 / 5))
  else 0

/-- STEP 2 of `Ship.update_ai` (src/ship.py lines 129-236): the
`if/elif` chain over the state.  A missing target leaves the frame's vertical
velocity at its initial value 0, as does any unknown state. -/
def ai_velocity (ship : Ship) (state : String) (target : Option Entity)
    (dist : ℚ) : ℚ :=
  match state, target with
  | "dodge", some t => dodge_velocity ship t
  | "engage_boss", some t => boss_velocity ship t dist
  | "collect_powerup", some t => powerup_velocity ship t
  | "engage_enemy", some t => enemy_velocity ship t
  | "patrol", _ => patrol_velocity ship
  | _, _ => 0

/-- Position update of `Ship.update_ai` (src/ship.py lines 238-251): add the
velocity to `rect.y`, clamp the result so the ship stays inside
`[0, screen_h - rect.h]`, and assign back to the integer rect field. -/
def apply_motion (ship : Ship) (v : ℚ) : ℤ :=
  let new_y : ℚ := (ship.rect.y : ℚ) + v
  let clamped : ℚ :=
    if new_y < 0 then 0
    else if new_y + (ship.rect.h : ℚ) > (ship.screen_h : ℚ) then
      (ship.screen_h : ℚ) - (ship.rect.h : ℚ)
    else new_y
  truncQ clamped

/-- `Ship.update_ai` (src/ship.py lines 68-251).  Argument order matches the
source (`aliens, boss_bullets, boss, powerups`); `dist` is the square-root
parameter threaded to `predict_target_position` (it only influences the
engage-boss aiming of a non-boss-flagged target with a velocity).  The
invulnerability-expiry check (real-time clock) and the powerup-consumption
side effect on the game object are outside the modelled state. -/
def update_ai (ship : Ship) (aliens : List Entity) (boss_bullets : List Entity)
    (boss : Option Entity) (powerups : List Entity) (dist : ℚ) : Ship :=
  let st := ai_decision ship aliens boss_bullets boss powerups
  let engaged := if st.1 = "engage_boss" then true else ship.boss_engaged
  let v := ai_velocity ship st.1 st.2 dist
  { ship with
    ai_state := st.1
    current_target := st.2
    boss_engaged := engaged
    rect := { ship.rect with y := apply_motion ship v } }

/-!
Concrete fixtures used by witnesses and counterexamples.  `exShip` uses the
actual game configuration: `settings.py` fixes the resolution at 1152 × 648,
`ship.py` scales the ship image to `80 * int(1152 * 0.0019) = 160` by
`56 * int(1152 * 0.0019) = 112`, sets `ship_speed = 1152 * 0.005` and
`ai_ship_speed = ship_speed * 8`, and `Settings` sets
`bullet_speed = 1152 * 0.01`.
-/

/-- An AI ship at `y = 300` with the real game configuration. -/
def exShip : Ship :=
  { rect := ⟨100, 300, 160, 112⟩, screen_w := 1152, screen_h := 648,
    ai_ship_speed := 1152 * (5 / 1000) * 8, bullet_speed := 1152 * (1 / 100),
    ai_state := "patrol", current_target := none, boss_engaged := false }

/-- A boss bullet dead ahead of `exShip`, centered at `(280, 356)` — exactly
the ship's center height, 100 pixels ahead. -/
def exBullet : Entity := { rect := ⟨270, 346, 20, 20⟩ }

/-- A boss centered at `(900, 200)`, within the 1500-unit perception range of
`exShip`. -/
def exBoss : Entity := { rect := ⟨800, 100, 200, 200⟩ }

/-- A green (laser) powerup centered at `(280, 396)`: 100 ahead and 40 below
`exShip`'s center, hence easily reachable (distance ≈ 107.7 < 120). -/
def exPow : Entity := { rect := ⟨270, 386, 20, 20⟩, ptype := some "green" }

/-- A boss centered at `(3100, 400)`, farther than 1500 units from `exShip`. -/
def farBoss : Entity := { rect := ⟨3000, 300, 200, 200⟩ }

/-- A powerup centered at `(170, 356)`: 10 units behind `exShip`'s center. -/
def powA : Entity := { rect := ⟨160, 346, 20, 20⟩ }

/-- A powerup centered at `(680, 356)`: 500 units ahead of `exShip`'s
center. -/
def powB : Entity := { rect := ⟨670, 346, 20, 20⟩ }

/-- An alien lying entirely behind `exShip` (its right edge at 30, the ship's
left edge at 100), vertically aligned with the ship. -/
def behindAlien : Entity := { rect := ⟨0, 340, 30, 30⟩ }

/-- A moving non-boss entity with velocity `(3, 4)`. -/
def exMoving : Entity := { rect := ⟨800, 100, 200, 200⟩, vel := some (3, 4) }

/-- An entity flagged `is_boss` that also has a velocity. -/
def bossFlag : Entity :=
  { rect := ⟨800, 100, 200, 200⟩, vel := some (3, 4), is_boss := true }

/-- The real game ship as a function of its vertical position `y`
(x position irrelevant to vertical motion). -/
def game_ship (y : ℤ) : Ship :=
  { rect := ⟨0, y, 160, 112⟩, screen_w := 1152, screen_h := 648,
    ai_ship_speed := 1152 * (5 / 1000) * 8, bullet_speed := 1152 * (1 / 100),
    ai_state := "patrol", current_target := none, boss_engaged := false }

/-- One controller tick with no enemies, boss bullets, boss or powerups. -/
def quiet_tick (s : Ship) : Ship := update_ai s [] [] none [] 0

/-- The vertical position after one quiet tick of the real game ship. -/
def next_y (y : ℤ) : ℤ :=
  apply_motion (game_ship y) (patrol_velocity (game_ship y))

/-!
Shared lemmas about the embedded operations.
-/

theorem foldlMin_spec {α β : Type} [LinearOrder β] (key : α → β) (xs : List α) (x : α) :
    (xs.foldl (fun b a => if key a < key b then a else b) x = x ∨
      xs.foldl (fun b a => if key a < key b then a else b) x ∈ xs) ∧
    key (xs.foldl (fun b a => if key a < key b then a else b) x) ≤ key x ∧
    ∀ a ∈ xs, key (xs.foldl (fun b a => if key a < key b then a else b) x) ≤ key a := by
  induction xs generalizing x with
  | nil => exact ⟨Or.inl rfl, le_refl _, by simp⟩
  | cons a xs ih =>
    simp only [List.foldl_cons]
    obtain ⟨hmem, hle, hall⟩ := ih (if key a < key x then a else x)
    have hle2 : key (if key a < key x then a else x) ≤ key x := by
      by_cases hc : key a < key x
      · rw [if_pos hc]; exact le_of_lt hc
      · rw [if_neg hc]
    have hlea : key (if key a < key x then a else x) ≤ key a := by
      by_cases hc : key a < key x
      · rw [if_pos hc]
      · rw [if_neg hc]; exact le_of_not_lt hc
    refine ⟨?_, le_trans hle hle2, ?_⟩
    · rcases hmem with h | h
      · rw [h]
        by_cases hc : key a < key x
        · rw [if_pos hc]; exact Or.inr (List.mem_cons_self a xs)
        · rw [if_neg hc]; exact Or.inl rfl
      · exact Or.inr (List.mem_cons_of_mem a h)
    · intro b hb
      rcases List.mem_cons.mp hb with rfl | hb
      · exact le_trans hle hlea
      · exact hall b hb

theorem firstMinBy_spec {α β : Type} [LinearOrder β] (key : α → β) (l : List α) (m : α)
    (h : firstMinBy key l = some m) : m ∈ l ∧ ∀ a ∈ l, key m ≤ key a := by
  cases l with
  | nil => simp [firstMinBy] at h
  | cons x xs =>
    have hm : xs.foldl (fun b a => if key a < key b then a else b) x = m := by
      simpa [firstMinBy] using h
    obtain ⟨hmem, hle, hall⟩ := foldlMin_spec key xs x
    subst hm
    refine ⟨?_, ?_⟩
    · rcases hmem with h | h
      · rw [h]; exact List.mem_cons_self x xs
      · exact List.mem_cons_of_mem x h
    · intro a ha
      rcases List.mem_cons.mp ha with rfl | ha
      · exact hle
      · exact hall a ha

theorem firstMinBy_eq_none {α β : Type} [LinearOrder β] (key : α → β) (l : List α) :
    firstMinBy key l = none ↔ l = [] := by
  cases l <;> simp [firstMinBy]

theorem clampQ_cases (c cap : ℚ) :
    (clampQ c cap = c ∧ c ≤ cap ∧ -cap ≤ c) ∨
      (clampQ c cap = cap ∧ cap < c) ∨
      (clampQ c cap = -cap ∧ c < -cap) := by
  unfold clampQ
  split_ifs with h1 h2
  · exact Or.inr (Or.inl ⟨rfl, h1⟩)
  · exact Or.inr (Or.inr ⟨rfl, h2⟩)
  · exact Or.inl ⟨rfl, not_lt.mp h1, not_lt.mp h2⟩

theorem truncQ_of_nonneg (q : ℚ) (h : 0 ≤ q) : truncQ q = ⌊q⌋ := by
  unfold truncQ
  rw [if_neg (not_lt.mpr h)]

theorem truncQ_intCast (z : ℤ) : truncQ (z : ℚ) = z := by
  unfold truncQ
  split_ifs with h
  · rw [← Int.cast_neg, Int.floor_intCast]; ring
  · exact Int.floor_intCast z

theorem apply_motion_bounds (ship : Ship) (v : ℚ)
    (hH : ship.rect.h ≤ ship.screen_h) :
    0 ≤ apply_motion ship v ∧
      apply_motion ship v + ship.rect.h ≤ ship.screen_h := by
  simp only [apply_motion]
  split_ifs with hlt hgt
  · have h00 : truncQ (0 : ℚ) = 0 := by
      have := truncQ_intCast 0
      simpa using this
    rw [h00]
    omega
  · have he : (ship.screen_h : ℚ) - (ship.rect.h : ℚ) =
        ((ship.screen_h - ship.rect.h : ℤ) : ℚ) := by push_cast; ring
    rw [he, truncQ_intCast]
    omega
  · have h1 : (0 : ℚ) ≤ (ship.rect.y : ℚ) + v := not_lt.mp hlt
    have h2 : (ship.rect.y : ℚ) + v + (ship.rect.h : ℚ) ≤ (ship.screen_h : ℚ) :=
      not_lt.mp hgt
    rw [truncQ_of_nonneg _ h1]
    constructor
    · exact Int.le_floor.mpr (by exact_mod_cast h1)
    · have h3 : (⌊(ship.rect.y : ℚ) + v⌋ : ℚ) ≤ (ship.rect.y : ℚ) + v :=
        Int.floor_le _
      have h4 : (⌊(ship.rect.y : ℚ) + v⌋ : ℚ) + (ship.rect.h : ℚ) ≤
          (ship.screen_h : ℚ) := by linarith
      exact_mod_cast h4

theorem apply_motion_no_clamp (ship : Ship) (v : ℚ)
    (h1 : ¬ ((ship.rect.y : ℚ) + v < 0))
    (h2 : ¬ ((ship.rect.y : ℚ) + v + (ship.rect.h : ℚ) > (ship.screen_h : ℚ))) :
    apply_motion ship v = ship.rect.y + ⌊v⌋ := by
  simp only [apply_motion]
  rw [if_neg h1, if_neg h2, truncQ_of_nonneg _ (not_lt.mp h1), Int.floor_int_add]

theorem apply_motion_zero (ship : Ship) (h1 : 0 ≤ ship.rect.y)
    (h2 : ship.rect.y + ship.rect.h ≤ ship.screen_h) :
    apply_motion ship 0 = ship.rect.y := by
  have c1 : ¬ ((ship.rect.y : ℚ) + 0 < 0) := by
    rw [add_zero]
    exact_mod_cast not_lt.mpr h1
  have c2 : ¬ ((ship.rect.y : ℚ) + 0 + (ship.rect.h : ℚ) > (ship.screen_h : ℚ)) := by
    rw [add_zero]
    rw [not_lt]
    exact_mod_cast h2
  simp only [apply_motion]
  rw [if_neg c1, if_neg c2, add_zero, truncQ_intCast]

theorem state_mapping_ne_dodge (a : String) (h : a ≠ "dodge") :
    state_mapping a ≠ "dodge" := by
  unfold state_mapping
  split_ifs with h1 h2 h3 h4 h5
  · exact absurd h1 h
  all_goals decide

theorem ai_decision_of_boss (ship : Ship)
    (aliens boss_bullets powerups : List Entity) (bo : Entity)
    (h : (Enhanced.select_target ship aliens (some bo) powerups boss_bullets).1 ≠
      "dodge") :
    ai_decision ship aliens boss_bullets (some bo) powerups =
      ("engage_boss", some bo) := by
  simp only [ai_decision]
  rw [if_pos (state_mapping_ne_dodge _ h)]

theorem update_ai_ai_state (ship : Ship) (aliens boss_bullets : List Entity)
    (boss : Option Entity) (powerups : List Entity) (d : ℚ) :
    (update_ai ship aliens boss_bullets boss powerups d).ai_state =
      (ai_decision ship aliens boss_bullets boss powerups).1 := rfl

theorem update_ai_current_target (ship : Ship) (aliens boss_bullets : List Entity)
    (boss : Option Entity) (powerups : List Entity) (d : ℚ) :
    (update_ai ship aliens boss_bullets boss powerups d).current_target =
      (ai_decision ship aliens boss_bullets boss powerups).2 := rfl

theorem update_ai_rect_y (ship : Ship) (aliens boss_bullets : List Entity)
    (boss : Option Entity) (powerups : List Entity) (d : ℚ) :
    (update_ai ship aliens boss_bullets boss powerups d).rect.y =
      apply_motion ship
        (ai_velocity ship (ai_decision ship aliens boss_bullets boss powerups).1
          (ai_decision ship aliens boss_bullets boss powerups).2 d) := rfl

theorem update_ai_rect_h (ship : Ship) (aliens boss_bullets : List Entity)
    (boss : Option Entity) (powerups : List Entity) (d : ℚ) :
    (update_ai ship aliens boss_bullets boss powerups d).rect.h = ship.rect.h := rfl

theorem update_ai_screen_h (ship : Ship) (aliens boss_bullets : List Entity)
    (boss : Option Entity) (powerups : List Entity) (d : ℚ) :
    (update_ai ship aliens boss_bullets boss powerups d).screen_h =
      ship.screen_h := rfl

theorem ai_velocity_dodge (ship : Ship) (t : Entity) (d : ℚ) :
    ai_velocity ship "dodge" (some t) d = dodge_velocity ship t := rfl

theorem ai_velocity_engage_boss (ship : Ship) (t : Entity) (d : ℚ) :
    ai_velocity ship "engage_boss" (some t) d = boss_velocity ship t d := rfl

theorem ai_velocity_collect_powerup (ship : Ship) (t : Entity) (d : ℚ) :
    ai_velocity ship "collect_powerup" (some t) d = powerup_velocity ship t := rfl

theorem ai_velocity_engage_enemy (ship : Ship) (t : Entity) (d : ℚ) :
    ai_velocity ship "engage_enemy" (some t) d = enemy_velocity ship t := rfl

theorem ai_velocity_patrol (ship : Ship) (tg : Option Entity) (d : ℚ) :
    ai_velocity ship "patrol" tg d = patrol_velocity ship := by
  cases tg <;> rfl

theorem find_nearest_powerup_isSome (ship : Ship) (ps : List Entity)
    (h : ps ≠ []) : ∃ p, find_nearest_powerup ship ps = some p := by
  simp only [find_nearest_powerup, List.partition_eq_filter_filter]
  cases hc : firstMinBy (fun p => distance_sq ship.rect p.rect)
      (ps.filter (is_ahead ship)) with
  | some q => exact ⟨q, rfl⟩
  | none =>
    have hfst : ps.filter (is_ahead ship) = [] := (firstMinBy_eq_none _ _).mp hc
    cases ps with
    | nil => exact absurd rfl h
    | cons x xs =>
      have hx : is_ahead ship x = false := by
        by_contra hx
        have hxt : is_ahead ship x = true := by
          cases hxv : is_ahead ship x
          · exact absurd hxv hx
          · rfl
        have : x ∈ (x :: xs).filter (is_ahead ship) :=
          List.mem_filter.mpr ⟨List.mem_cons_self x xs, hxt⟩
        rw [hfst] at this
        exact absurd this (List.not_mem_nil x)
      cases hc2 : firstMinBy (fun p => distance_sq ship.rect p.rect)
          ((x :: xs).filter (not ∘ is_ahead ship)) with
      | some q => exact ⟨q, rfl⟩
      | none =>
        exfalso
        have hsnd := (firstMinBy_eq_none _ _).mp hc2
        have : x ∈ (x :: xs).filter (not ∘ is_ahead ship) :=
          List.mem_filter.mpr ⟨List.mem_cons_self x xs, by
            simp [Function.comp, hx]⟩
        rw [hsnd] at this
        exact absurd this (List.not_mem_nil x)

theorem dodge_bullet_gate_some (ship : Ship) (l : List Entity) (b : Entity)
    (h : find_dangerous_bullet ship l = some b)
    (ht : Enhanced.is_threatening ship b = true) :
    Enhanced.dodge_bullet_gate ship l = some b := by
  cases l with
  | nil => simp [find_dangerous_bullet, firstMinBy] at h
  | cons x xs => simp [Enhanced.dodge_bullet_gate, h, ht]

/-!
Claim theorems.
-/

/-- C1: whenever the threat detector of a strategy variant reports a dangerous
incoming projectile (for `AggressiveStrategy`, `_find_dangerous_bullet`
returns it; for `EnhancedAIStrategy`, `_find_dangerous_bullet` on the
range-filtered bullet list returns it and it passes the variant's 150-unit
threat threshold), `select_target` returns the Dodge action with that
projectile — in particular never EngageBoss, for any boss argument. -/
theorem dangerous_projectile_forces_dodge :
    (∀ (ship : Ship) (aliens : List Entity) (boss : Option Entity)
        (powerups boss_bullets : List Entity) (b : Entity),
      find_dangerous_bullet ship boss_bullets = some b →
      Aggressive.select_target ship aliens boss powerups boss_bullets =
        ("dodge", some b)) ∧
    (∀ (ship : Ship) (aliens : List Entity) (boss : Option Entity)
        (powerups boss_bullets : List Entity) (b : Entity),
      find_dangerous_bullet ship (Enhanced.filter_within_range ship boss_bullets) =
        some b →
      Enhanced.is_threatening ship b = true →
      Enhanced.select_target ship aliens boss powerups boss_bullets =
        ("dodge", some b)) := by
  constructor
  · intro ship aliens boss powerups boss_bullets b h
    cases boss_bullets with
    | nil => simp [find_dangerous_bullet, firstMinBy] at h
    | cons x xs => simp [Aggressive.select_target, h]
  · intro ship aliens boss powerups boss_bullets b h ht
    have hgate := dodge_bullet_gate_some ship
      (Enhanced.filter_within_range ship boss_bullets) b h ht
    simp [Enhanced.select_target, hgate]

/-- C1 witness: a bullet dead ahead of the ship forces Dodge in both variants
even though a boss is present. -/
theorem dangerous_projectile_forces_dodge_witness :
    Aggressive.select_target exShip [] (some exBoss) [] [exBullet] =
      ("dodge", some exBullet) ∧
    Enhanced.select_target exShip [] (some exBoss) [] [exBullet] =
      ("dodge", some exBullet) :=
  ⟨dangerous_projectile_forces_dodge.1 exShip [] (some exBoss) [] [exBullet]
      exBullet (by decide),
   dangerous_projectile_forces_dodge.2 exShip [] (some exBoss) [] [exBullet]
      exBullet (by decide) (by decide)⟩

/-- C3: whenever `Ship.update_ai` runs with a non-`None` boss and the
strategy's selected action is not `'dodge'`, the resulting `ai_state` is
`'engage_boss'` and `current_target` is the boss — whatever `select_target`
decided (even `'patrol'` for a boss beyond the 1500-unit perception range). -/
theorem update_ai_boss_override (ship : Ship)
    (aliens boss_bullets powerups : List Entity) (bo : Entity) (d : ℚ)
    (h : (Enhanced.select_target ship aliens (some bo) powerups boss_bullets).1 ≠
      "dodge") :
    (update_ai ship aliens boss_bullets (some bo) powerups d).ai_state =
      "engage_boss" ∧
    (update_ai ship aliens boss_bullets (some bo) powerups d).current_target =
      some bo := by
  rw [update_ai_ai_state, update_ai_current_target,
    ai_decision_of_boss ship aliens boss_bullets powerups bo h]
  exact ⟨rfl, rfl⟩

/-- C3 witness: a boss 2900 units away (beyond the 1500-unit perception
radius, so the strategy answers `patrol`) still yields
`ai_state = engage_boss` targeting that boss. -/
theorem update_ai_boss_override_witness :
    (update_ai exShip [] [] (some farBoss) [] 0).ai_state = "engage_boss" ∧
    (update_ai exShip [] [] (some farBoss) [] 0).current_target = some farBoss :=
  update_ai_boss_override exShip [] [] [] farBoss 0 (by decide)

/-- C2 counterexample: boss present and in range, no dodge, a green powerup
100 ahead / 40 below the ship (distance² = 11600 < 120², vertical 40 < 60, so
within the 150-unit pickup distance and easily reachable).  The strategy
selects `target_powerup` with that powerup, but the state the controller
applies is `engage_boss` with the boss — not CollectPowerup. -/
theorem collect_powerup_applied_cex :
    Enhanced.select_target exShip [] (some exBoss) [exPow] [] =
      ("target_powerup", some exPow) ∧
    distance_sq exShip.rect exPow.rect < 22500 ∧
    is_easily_reachable exShip exPow = true ∧
    (update_ai exShip [] [] (some exBoss) [exPow] 0).ai_state = "engage_boss" ∧
    (update_ai exShip [] [] (some exBoss) [exPow] 0).ai_state ≠
      "collect_powerup" ∧
    (update_ai exShip [] [] (some exBoss) [exPow] 0).current_target =
      some exBoss := by
  refine ⟨by decide, by decide, by decide, ?_, ?_, ?_⟩ <;> decide

/-- C2 amended: when a boss is present, no dodge is triggered, and the
strategy finds an easily reachable offensive powerup — so `select_target`
returns CollectPowerup with that powerup — the action applied by the
controller is nevertheless EngageBoss with the boss: `Ship.update_ai`
overrides every non-dodge decision while a boss exists. -/
theorem collect_powerup_selected_boss_applied (ship : Ship)
    (aliens boss_bullets powerups : List Entity) (bo p : Entity) (d : ℚ)
    (h : Enhanced.select_target ship aliens (some bo) powerups boss_bullets =
      ("target_powerup", some p)) :
    (update_ai ship aliens boss_bullets (some bo) powerups d).ai_state =
      "engage_boss" ∧
    (update_ai ship aliens boss_bullets (some bo) powerups d).current_target =
      some bo := by
  have h1 : (Enhanced.select_target ship aliens (some bo) powerups
      boss_bullets).1 ≠ "dodge" := by
    rw [h]
    have hne : ("target_powerup" : String) ≠ "dodge" := by decide
    exact fun hcon => hne hcon
  rw [update_ai_ai_state, update_ai_current_target,
    ai_decision_of_boss ship aliens boss_bullets powerups bo h1]
  exact ⟨rfl, rfl⟩

/-- C2 amended witness. -/
theorem collect_powerup_selected_boss_applied_witness :
    (update_ai exShip [] [] (some exBoss) [exPow] 0).ai_state = "engage_boss" ∧
    (update_ai exShip [] [] (some exBoss) [exPow] 0).current_target =
      some exBoss :=
  collect_powerup_selected_boss_applied exShip [] [] [exPow] exBoss exPow 0
    (by decide)

/-- C4: after `Ship.update_ai`, the ship's bounding-box top (`rect.y`) is ≥ 0
and its bottom (`rect.y + rect.h`) is ≤ the screen height, for every world
state and every square-root parameter — hence for any magnitude of the
computed velocity — provided only that the ship fits on the screen. -/
theorem update_ai_stays_on_screen (ship : Ship)
    (aliens boss_bullets : List Entity) (boss : Option Entity)
    (powerups : List Entity) (d : ℚ)
    (hH : ship.rect.h ≤ ship.screen_h) :
    0 ≤ (update_ai ship aliens boss_bullets boss powerups d).rect.y ∧
    (update_ai ship aliens boss_bullets boss powerups d).rect.y +
        (update_ai ship aliens boss_bullets boss powerups d).rect.h ≤
      (update_ai ship aliens boss_bullets boss powerups d).screen_h := by
  rw [update_ai_rect_y, update_ai_rect_h, update_ai_screen_h]
  exact apply_motion_bounds ship _ hH

/-- C4 witness: a dodging tick of the concrete ship stays on screen. -/
theorem update_ai_stays_on_screen_witness :
    0 ≤ (update_ai exShip [] [exBullet] none [] 0).rect.y ∧
    (update_ai exShip [] [exBullet] none [] 0).rect.y +
        (update_ai exShip [] [exBullet] none [] 0).rect.h ≤
      (update_ai exShip [] [exBullet] none [] 0).screen_h :=
  update_ai_stays_on_screen exShip [] [exBullet] none [] 0 (by decide)

/-- C5: `predict_target_position` on an entity whose `is_boss` flag is set
returns exactly the entity's current rect center, for every projectile speed,
every optional shooter and every value of the distance parameter — hence
independent of the entity's velocity and of the projectile speed. -/
theorem predict_boss_returns_center (target : Entity) (projectile_speed : ℚ)
    (shooter : Option Rect) (dist : ℚ) (h : target.is_boss = true) :
    predict_target_position target projectile_speed shooter dist =
      ((target.rect.centerx : ℚ), (target.rect.centery : ℚ)) := by
  simp [predict_target_position, h]

/-- C5 witness: a boss-flagged entity with velocity `(3, 4)` is predicted at
its exact center whatever the speed, shooter and distance arguments. -/
theorem predict_boss_returns_center_witness :
    bossFlag.is_boss = true ∧
    predict_target_position bossFlag 7 (some exShip.rect) 99 =
      ((bossFlag.rect.centerx : ℚ), (bossFlag.rect.centery : ℚ)) :=
  ⟨rfl, predict_boss_returns_center bossFlag 7 (some exShip.rect) 99 rfl⟩

/-- C10: `predict_target_position` always returns a position, with the
documented time-to-target in each case: `0.5` with no shooter,
`dist / projectile_speed` with a shooter and positive speed, `0` (so the
current position) with a shooter and non-positive speed — the guarded form of
the division — and the current position whenever the velocity attribute is
absent. -/
theorem predict_target_position_total (target : Entity)
    (projectile_speed dist : ℚ) (h : target.is_boss = false) :
    (predict_target_position target projectile_speed none dist =
      ((target.rect.centerx : ℚ) + (target.vel.getD (0, 0)).1 * (1 / 2),
       (target.rect.centery : ℚ) + (target.vel.getD (0, 0)).2 * (1 / 2))) ∧
    (∀ r : Rect, 0 < projectile_speed →
      predict_target_position target projectile_speed (some r) dist =
        ((target.rect.centerx : ℚ) +
            (target.vel.getD (0, 0)).1 * (dist / projectile_speed),
         (target.rect.centery : ℚ) +
            (target.vel.getD (0, 0)).2 * (dist / projectile_speed))) ∧
    (∀ r : Rect, projectile_speed ≤ 0 →
      predict_target_position target projectile_speed (some r) dist =
        ((target.rect.centerx : ℚ), (target.rect.centery : ℚ))) ∧
    (target.vel = none →
      ∀ shooter : Option Rect,
        predict_target_position target projectile_speed shooter dist =
          ((target.rect.centerx : ℚ), (target.rect.centery : ℚ))) := by
  refine ⟨?_, ?_, ?_, ?_⟩
  · simp [predict_target_position, h]
  · intro r hs
    simp [predict_target_position, h, hs]
  · intro r hs
    simp [predict_target_position, h, not_lt.mpr hs]
  · intro hv shooter
    cases shooter <;> simp [predict_target_position, h, hv]

/-- C10 witness: the with-shooter, positive-speed case evaluated on a moving
non-boss entity. -/
theorem predict_target_position_total_witness :
    exMoving.is_boss = false ∧ (0 : ℚ) < 2 ∧
    predict_target_position exMoving 2 (some exShip.rect) 99 =
      ((exMoving.rect.centerx : ℚ) +
          (exMoving.vel.getD (0, 0)).1 * (99 / 2),
       (exMoving.rect.centery : ℚ) +
          (exMoving.vel.getD (0, 0)).2 * (99 / 2)) :=
  ⟨rfl, by norm_num,
   (predict_target_position_total exMoving 2 99 rfl).2.1 exShip.rect
      (by norm_num)⟩

/-- C8 counterexample: an alien lying entirely behind the ship (its right
edge at 30 while the ship's left edge is at 100, so it is not ahead of the
ship's leading edge) is still returned by `_find_dangerous_enemy`, because the
filter `alien.rect.left - ship.rect.right < 70` has no lower bound. -/
theorem dangerous_enemy_behind_cex :
    find_dangerous_enemy exShip [behindAlien] = some behindAlien ∧
    behindAlien.rect.rightEdge < exShip.rect.leftEdge := by
  constructor <;> decide

/-- C8 amended: `_find_dangerous_enemy` keeps exactly the enemies whose left
edge is less than 70 units to the right of the ship's right edge — with no
ahead requirement, so enemies behind or overlapping the ship also qualify —
and whose center is within the 50-unit vertical band, and among those returns
one at minimal straight-line distance, or none when no enemy qualifies. -/
theorem dangerous_enemy_characterisation (ship : Ship) (aliens : List Entity) :
    (find_dangerous_enemy ship aliens = none ↔
      ∀ a ∈ aliens, ¬ enemyDangerous ship a) ∧
    ∀ e, find_dangerous_enemy ship aliens = some e →
      e ∈ aliens ∧ enemyDangerous ship e ∧
      ∀ b ∈ aliens, enemyDangerous ship b →
        distance_sq ship.rect e.rect ≤ distance_sq ship.rect b.rect := by
  constructor
  · rw [find_dangerous_enemy, firstMinBy_eq_none, List.filter_eq_nil_iff]
    simp
  · intro e he
    obtain ⟨hmem, hall⟩ := firstMinBy_spec _ _ _ he
    rw [List.mem_filter] at hmem
    refine ⟨hmem.1, of_decide_eq_true hmem.2, ?_⟩
    intro b hb hdb
    exact hall b (List.mem_filter.mpr ⟨hb, decide_eq_true hdb⟩)

/-- C8 witness: the amended characterisation applied to the behind-the-ship
alien. -/
theorem dangerous_enemy_characterisation_witness :
    behindAlien ∈ [behindAlien] ∧ enemyDangerous exShip behindAlien := by
  have h := (dangerous_enemy_characterisation exShip [behindAlien]).2
    behindAlien (by decide)
  exact ⟨h.1, h.2.1⟩

/-- C7 counterexample: with a powerup 10 units behind the ship (`powA`) and
one 500 units ahead (`powB`), both selectors return the far ahead powerup,
not the strictly nearer one — so ahead-of-ship is a categorical preference,
not a tie-break among equally distant powerups. -/
theorem nearest_powerup_cex :
    Aggressive.select_target exShip [] none [powA, powB] [] =
      ("target_powerup", some powB) ∧
    Enhanced.select_target exShip [] none [powA, powB] [] =
      ("target_powerup", some powB) ∧
    distance_sq exShip.rect powA.rect < distance_sq exShip.rect powB.rect := by
  refine ⟨?_, ?_, ?_⟩ <;> decide

/-- C7 amended: with no dangerous bullet or enemy reported and no boss, a
non-empty powerup list makes both selectors return CollectPowerup with the
powerup chosen by `_find_nearest_powerup`, and that choice is the nearest
among the powerups ahead of the ship whenever at least one powerup is ahead,
and the nearest overall only when no powerup is ahead. -/
theorem nearest_powerup_ahead_first :
    (∀ (ship : Ship) (ps : List Entity) (p : Entity),
      find_nearest_powerup ship ps = some p →
      p ∈ ps ∧
      ((∃ q ∈ ps, is_ahead ship q = true) →
        is_ahead ship p = true ∧
        ∀ q ∈ ps, is_ahead ship q = true →
          distance_sq ship.rect p.rect ≤ distance_sq ship.rect q.rect) ∧
      ((∀ q ∈ ps, is_ahead ship q = false) →
        ∀ q ∈ ps,
          distance_sq ship.rect p.rect ≤ distance_sq ship.rect q.rect)) ∧
    (∀ (ship : Ship) (aliens boss_bullets ps : List Entity),
      find_dangerous_bullet ship boss_bullets = none →
      find_dangerous_enemy ship aliens = none →
      ps ≠ [] →
      ∃ p, find_nearest_powerup ship ps = some p ∧
        Aggressive.select_target ship aliens none ps boss_bullets =
          ("target_powerup", some p)) ∧
    (∀ (ship : Ship) (aliens boss_bullets ps : List Entity),
      Enhanced.dodge_bullet_gate ship
          (Enhanced.filter_within_range ship boss_bullets) = none →
      Enhanced.dodge_enemy_gate ship
          (Enhanced.filter_within_range ship aliens) = none →
      Enhanced.filter_within_range ship ps ≠ [] →
      ∃ p, find_nearest_powerup ship (Enhanced.filter_within_range ship ps) =
          some p ∧
        Enhanced.select_target ship aliens none ps boss_bullets =
          ("target_powerup", some p)) := by
  refine ⟨?_, ?_, ?_⟩
  · intro ship ps p h
    simp only [find_nearest_powerup, List.partition_eq_filter_filter] at h
    cases hc : firstMinBy (fun p => distance_sq ship.rect p.rect)
        (ps.filter (is_ahead ship)) with
    | some q =>
      rw [hc] at h
      obtain rfl : q = p := by simpa using h
      obtain ⟨hmem, hall⟩ := firstMinBy_spec _ _ _ hc
      rw [List.mem_filter] at hmem
      refine ⟨hmem.1, fun _ => ⟨hmem.2, ?_⟩, fun hnone => ?_⟩
      · intro t ht hta
        exact hall t (List.mem_filter.mpr ⟨ht, hta⟩)
      · exact absurd hmem.2 (by simp [hnone q hmem.1])
    | none =>
      rw [hc] at h
      have hfst : ps.filter (is_ahead ship) = [] := (firstMinBy_eq_none _ _).mp hc
      have hnoahead : ∀ a ∈ ps, is_ahead ship a = false := by
        intro a ha
        by_contra hx
        have hxt : is_ahead ship a = true := by
          cases hxv : is_ahead ship a
          · exact absurd hxv hx
          · rfl
        have : a ∈ ps.filter (is_ahead ship) :=
          List.mem_filter.mpr ⟨ha, hxt⟩
        rw [hfst] at this
        exact absurd this (List.not_mem_nil a)
      obtain ⟨hmem, hall⟩ := firstMinBy_spec _ _ _ h
      rw [List.mem_filter] at hmem
      refine ⟨hmem.1, fun hex => ?_, fun _ => ?_⟩
      · obtain ⟨q, hq, hqa⟩ := hex
        rw [hnoahead q hq] at hqa
        exact absurd hqa (by decide)
      · intro q hq
        exact hall q (List.mem_filter.mpr ⟨hq, by
          simp [Function.comp, hnoahead q hq]⟩)
  · intro ship aliens boss_bullets ps hb he hne
    obtain ⟨p, hp⟩ := find_nearest_powerup_isSome ship ps hne
    refine ⟨p, hp, ?_⟩
    have h1 : (if boss_bullets.isEmpty then none
        else find_dangerous_bullet ship boss_bullets) = (none : Option Entity) := by
      cases boss_bullets with
      | nil => rfl
      | cons x xs => simpa using hb
    have h2 : (if ps.isEmpty then none else find_nearest_powerup ship ps) =
        some p := by
      cases ps with
      | nil => exact absurd rfl hne
      | cons x xs => simpa using hp
    simp only [List.isEmpty_iff] at h1 h2
    simp [Aggressive.select_target, h1, he, h2]
  · intro ship aliens boss_bullets ps hb he hne
    obtain ⟨p, hp⟩ :=
      find_nearest_powerup_isSome ship (Enhanced.filter_within_range ship ps) hne
    refine ⟨p, hp, ?_⟩
    have h2 : (if (Enhanced.filter_within_range ship ps).isEmpty then none
        else find_nearest_powerup ship (Enhanced.filter_within_range ship ps)) =
        some p := by
      cases hps : Enhanced.filter_within_range ship ps with
      | nil => exact absurd hps hne
      | cons x xs => rw [hps] at hp; simpa using hp
    simp only [List.isEmpty_iff] at h2
    simp [Enhanced.select_target, hb, he, h2]

/-- C7 witness: the nearest-ahead characterisation and the Aggressive
selector evaluated on the two-powerup counterexample world (hypotheses
discharged concretely); `powB` is ahead and minimal among the ahead
powerups. -/
theorem nearest_powerup_ahead_first_witness :
    find_nearest_powerup exShip [powA, powB] = some powB ∧
    powB ∈ [powA, powB] ∧ is_ahead exShip powB = true := by
  have h := nearest_powerup_ahead_first.1 exShip [powA, powB] powB (by decide)
  exact ⟨by decide, h.1, (h.2.1 ⟨powB, by decide, by decide⟩).1⟩

/-- C6 counterexample: the Dodge state has no dead-zone.  With a threatening
bullet at exactly the ship's center height the computed offset is 0, yet the
tick computes the forced-dodge velocity 25 (not 0) and moves the ship from
`y = 300` to `y = 325`. -/
theorem dodge_deadzone_cex :
    (update_ai exShip [] [exBullet] none [] 0).ai_state = "dodge" ∧
    (exShip.rect.centery : ℚ) - (exBullet.rect.centery : ℚ) = 0 ∧
    ai_velocity exShip "dodge" (some exBullet) 0 = 25 ∧
    (update_ai exShip [] [exBullet] none [] 0).rect.y = 325 ∧
    exShip.rect.y = 300 := by
  have hdec : ai_decision exShip [] [exBullet] none [] =
      ("dodge", some exBullet) := by decide
  have hv : ai_velocity exShip "dodge" (some exBullet) 0 = 25 := by
    rw [ai_velocity_dodge]
    norm_num [dodge_velocity, clampQ, exShip, exBullet, Rect.centery]
  refine ⟨by decide, ?_, hv, ?_, rfl⟩
  · norm_num [exShip, exBullet, Rect.centery]
  · rw [update_ai_rect_y, hdec]
    rw [show (("dodge", some exBullet) : String × Option Entity).1 = "dodge" from rfl,
      show (("dodge", some exBullet) : String × Option Entity).2 = some exBullet from rfl,
      hv]
    norm_num [apply_motion, truncQ, exShip]

/-- C6 amended: for the four states that have a dead-zone — EngageBoss (5),
CollectPowerup (10), EngageEnemy (15) and Patrol (15) — an offset within the
dead-zone yields vertical velocity exactly 0, and a zero velocity leaves the
position of an on-screen ship unchanged by the tick.  The Dodge state is the
exception: it has no dead-zone, and a small offset instead forces a
fixed-magnitude dodge (see the counterexample). -/
theorem deadzone_zero_velocity (ship : Ship) (t : Entity) (d : ℚ) :
    (|boss_offset ship t d| ≤ 5 →
      ai_velocity ship "engage_boss" (some t) d = 0) ∧
    (|target_offset ship t| ≤ 10 →
      ai_velocity ship "collect_powerup" (some t) d = 0) ∧
    (|target_offset ship t| ≤ 15 →
      ai_velocity ship "engage_enemy" (some t) d = 0) ∧
    (|patrol_offset ship| ≤ 15 →
      ∀ tg : Option Entity, ai_velocity ship "patrol" tg d = 0) ∧
    (0 ≤ ship.rect.y → ship.rect.y + ship.rect.h ≤ ship.screen_h →
      ∀ (st : String) (tg : Option Entity),
        ai_velocity ship st tg d = 0 →
        apply_motion ship (ai_velocity ship st tg d) = ship.rect.y) := by
  refine ⟨?_, ?_, ?_, ?_, ?_⟩
  · intro h
    rw [ai_velocity_engage_boss, boss_velocity, if_neg (not_lt.mpr h)]
  · intro h
    rw [ai_velocity_collect_powerup, powerup_velocity, if_neg (not_lt.mpr h)]
  · intro h
    rw [ai_velocity_engage_enemy, enemy_velocity, if_neg (not_lt.mpr h)]
  · intro h tg
    rw [ai_velocity_patrol, patrol_velocity, if_neg (not_lt.mpr h)]
  · intro h1 h2 st tg hv
    rw [hv]
    exact apply_motion_zero ship h1 h2

/-- C6 witness: the patrol dead-zone case on the centered game ship (offset
exactly 0), with the position-unchanged part discharged through the same
theorem. -/
theorem deadzone_zero_velocity_witness :
    |patrol_offset (game_ship 268)| ≤ 15 ∧
    ai_velocity (game_ship 268) "patrol" none 0 = 0 ∧
    apply_motion (game_ship 268)
      (ai_velocity (game_ship 268) "patrol" none 0) = (game_ship 268).rect.y := by
  have hoff : |patrol_offset (game_ship 268)| ≤ 15 := by
    norm_num [patrol_offset, game_ship, Rect.centery]
  have h := deadzone_zero_velocity (game_ship 268) exBullet 0
  have hv := h.2.2.2.1 hoff none
  exact ⟨hoff, hv, h.2.2.2.2 (by norm_num [game_ship])
    (by norm_num [game_ship]) "patrol" none hv⟩

theorem patrol_offset_game_ship (y : ℤ) :
    patrol_offset (game_ship y) = ((268 - y : ℤ) : ℚ) := by
  simp only [patrol_offset, game_ship, Rect.centery]
  push_cast
  norm_num
  ring

theorem quiet_tick_game_ship (y : ℤ) :
    quiet_tick (game_ship y) = game_ship (next_y y) := rfl

theorem next_y_spec (y : ℤ) (h0 : 0 ≤ y) (h1 : y ≤ 536) :
    |268 - next_y y| ≤ |268 - y| ∧
    (15 < |268 - y| → |268 - next_y y| + 2 ≤ |268 - y|) ∧
    (|268 - y| ≤ 15 → next_y y = y) ∧
    0 ≤ next_y y ∧ next_y y ≤ 536 := by
  by_cases hdz : |268 - y| ≤ 15
  · have hv : patrol_velocity (game_ship y) = 0 := by
      rw [patrol_velocity, patrol_offset_game_ship, if_neg]
      rw [not_lt, ← Int.cast_abs]
      exact_mod_cast hdz
    have hnext : next_y y = y := by
      rw [next_y, hv]
      exact apply_motion_zero (game_ship y) h0 (by show y + 112 ≤ 648; omega)
    rw [hnext]
    exact ⟨le_refl _, fun hgt => absurd hgt (not_lt.mpr hdz), fun _ => rfl, h0, h1⟩
  · have hdz' : 15 < |268 - y| := lt_of_not_le hdz
    have hcap : (game_ship y).ai_ship_speed * (3 / 5) = (3456 / 125 : ℚ) := by
      norm_num [game_ship]
    have hv : patrol_velocity (game_ship y) =
        clampQ (((268 - y : ℤ) : ℚ) * (3 / 20)) (3456 / 125) := by
      rw [patrol_velocity, patrol_offset_game_ship, hcap,
        if_pos (show (15 : ℚ) < |((268 - y : ℤ) : ℚ)| from by
          rw [← Int.cast_abs]; exact_mod_cast hdz')]
    rcases abs_cases (268 - y) with ⟨hae, _⟩ | ⟨hae, _⟩
    · -- ship above the midpoint: positive offset, moving down
      have hz16 : 16 ≤ 268 - y := by omega
      have hzq : (16 : ℚ) ≤ ((268 - y : ℤ) : ℚ) := by exact_mod_cast hz16
      have hvlo : (12 / 5 : ℚ) ≤ patrol_velocity (game_ship y) := by
        rw [hv]
        rcases clampQ_cases (((268 - y : ℤ) : ℚ) * (3 / 20)) (3456 / 125) with
          ⟨hc, _, _⟩ | ⟨hc, _⟩ | ⟨hc, hcg⟩
        · rw [hc]; linarith
        · rw [hc]; norm_num
        · exfalso; linarith
      have hvhi : patrol_velocity (game_ship y) ≤ ((268 - y : ℤ) : ℚ) * (3 / 20) := by
        rw [hv]
        rcases clampQ_cases (((268 - y : ℤ) : ℚ) * (3 / 20)) (3456 / 125) with
          ⟨hc, _, _⟩ | ⟨hc, hcg⟩ | ⟨hc, hcg⟩
        · rw [hc]
        · rw [hc]; linarith
        · rw [hc]; linarith
      have hfl2 : 2 ≤ ⌊patrol_velocity (game_ship y)⌋ :=
        Int.le_floor.mpr (by push_cast; linarith)
      have hfu : ⌊patrol_velocity (game_ship y)⌋ < 268 - y := by
        rw [Int.floor_lt]
        exact lt_of_le_of_lt hvhi (by linarith)
      have hyq : (0 : ℚ) ≤ (y : ℚ) := by exact_mod_cast h0
      have hysum : (y : ℚ) + ((268 - y : ℤ) : ℚ) = 268 := by push_cast; ring
      have hnc1 : ¬ (((game_ship y).rect.y : ℚ) +
          patrol_velocity (game_ship y) < 0) := by
        show ¬ ((y : ℚ) + patrol_velocity (game_ship y) < 0)
        push_neg
        linarith
      have hnc2 : ¬ (((game_ship y).rect.y : ℚ) + patrol_velocity (game_ship y) +
          ((game_ship y).rect.h : ℚ) > ((game_ship y).screen_h : ℚ)) := by
        show ¬ ((y : ℚ) + patrol_velocity (game_ship y) + (112 : ℚ) > (648 : ℚ))
        push_neg
        linarith
      have hnext : next_y y = y + ⌊patrol_velocity (game_ship y)⌋ := by
        rw [next_y]
        exact apply_motion_no_clamp (game_ship y) _ hnc1 hnc2
      have habs1 : |268 - next_y y| = 268 - next_y y := by
        apply abs_of_nonneg
        rw [hnext]
        omega
      refine ⟨?_, fun _ => ?_, fun hcon => absurd hcon hdz, ?_, ?_⟩
      · rw [habs1, hae, hnext]; omega
      · rw [habs1, hae, hnext]; omega
      · rw [hnext]; omega
      · rw [hnext]; omega
    · -- ship below the midpoint: negative offset, moving up
      have hz16 : 268 - y ≤ -16 := by omega
      have hzq : ((268 - y : ℤ) : ℚ) ≤ -16 := by exact_mod_cast hz16
      have hvhi : patrol_velocity (game_ship y) ≤ (-12 / 5 : ℚ) := by
        rw [hv]
        rcases clampQ_cases (((268 - y : ℤ) : ℚ) * (3 / 20)) (3456 / 125) with
          ⟨hc, _, _⟩ | ⟨hc, hcg⟩ | ⟨hc, hcg⟩
        · rw [hc]; linarith
        · exfalso; linarith
        · rw [hc]; norm_num
      have hvlo1 : (-(3456 / 125) : ℚ) ≤ patrol_velocity (game_ship y) := by
        rw [hv]
        rcases clampQ_cases (((268 - y : ℤ) : ℚ) * (3 / 20)) (3456 / 125) with
          ⟨hc, _, hcg⟩ | ⟨hc, hcg⟩ | ⟨hc, hcg⟩
        · rw [hc]; linarith
        · exfalso; linarith
        · rw [hc]
      have hvlo2 : ((268 - y : ℤ) : ℚ) * (3 / 20) ≤
          patrol_velocity (game_ship y) := by
        rw [hv]
        rcases clampQ_cases (((268 - y : ℤ) : ℚ) * (3 / 20)) (3456 / 125) with
          ⟨hc, _, _⟩ | ⟨hc, hcg⟩ | ⟨hc, hcg⟩
        · rw [hc]
        · exfalso; linarith
        · rw [hc]; linarith
      have hfu3 : ⌊patrol_velocity (game_ship y)⌋ ≤ -3 := by
        have h2 : ⌊patrol_velocity (game_ship y)⌋ < -2 :=
          Int.floor_lt.mpr (by push_cast; linarith)
        omega
      have hfl28 : -28 ≤ ⌊patrol_velocity (game_ship y)⌋ :=
        Int.le_floor.mpr (by push_cast; linarith)
      have hgz : 268 - y < ⌊patrol_velocity (game_ship y)⌋ := by
        have hc268 : ((268 - y : ℤ) : ℚ) = 268 - (y : ℚ) := by push_cast; ring
        have h3 : (268 - y) + 1 ≤ ⌊patrol_velocity (game_ship y)⌋ :=
          Int.le_floor.mpr (by push_cast; linarith [hvlo2, hzq, hc268])
        omega
      have hy284 : 284 ≤ y := by omega
      have hyq : (284 : ℚ) ≤ (y : ℚ) := by exact_mod_cast hy284
      have hyq2 : (y : ℚ) ≤ 536 := by exact_mod_cast h1
      have hnc1 : ¬ (((game_ship y).rect.y : ℚ) +
          patrol_velocity (game_ship y) < 0) := by
        show ¬ ((y : ℚ) + patrol_velocity (game_ship y) < 0)
        push_neg
        linarith
      have hnc2 : ¬ (((game_ship y).rect.y : ℚ) + patrol_velocity (game_ship y) +
          ((game_ship y).rect.h : ℚ) > ((game_ship y).screen_h : ℚ)) := by
        show ¬ ((y : ℚ) + patrol_velocity (game_ship y) + (112 : ℚ) > (648 : ℚ))
        push_neg
        linarith
      have hnext : next_y y = y + ⌊patrol_velocity (game_ship y)⌋ := by
        rw [next_y]
        exact apply_motion_no_clamp (game_ship y) _ hnc1 hnc2
      have habs1 : |268 - next_y y| = -(268 - next_y y) := by
        apply abs_of_neg
        rw [hnext]
        omega
      refine ⟨?_, fun _ => ?_, fun hcon => absurd hcon hdz, ?_, ?_⟩
      · rw [habs1, hae, hnext]; omega
      · rw [habs1, hae, hnext]; omega
      · rw [hnext]; omega
      · rw [hnext]; omega

theorem next_y_reaches (k : ℕ) : ∀ y : ℤ, 0 ≤ y → y ≤ 536 →
    (268 - y).natAbs ≤ k → ∃ n : ℕ, |268 - next_y^[n] y| ≤ 15 := by
  induction k with
  | zero =>
    intro y h0 h1 hk
    refine ⟨0, ?_⟩
    simp only [Function.iterate_zero, id_eq]
    have h2 : |268 - y| = (((268 - y).natAbs : ℤ)) := Int.abs_eq_natAbs _
    omega
  | succ k ih =>
    intro y h0 h1 hk
    by_cases hdz : |268 - y| ≤ 15
    · exact ⟨0, by simpa using hdz⟩
    · obtain ⟨hA, hB, hC, hD, hE⟩ := next_y_spec y h0 h1
      have hs := hB (lt_of_not_le hdz)
      obtain ⟨n, hn⟩ := ih (next_y y) hD hE (by
        have e1 : |268 - next_y y| = (((268 - next_y y).natAbs : ℤ)) :=
          Int.abs_eq_natAbs _
        have e0 : |268 - y| = (((268 - y).natAbs : ℤ)) := Int.abs_eq_natAbs _
        omega)
      exact ⟨n + 1, by rw [Function.iterate_succ_apply]; exact hn⟩

/-- C9: with no enemies, boss bullets, boss or powerups, a tick of the real
game's controller (`game_ship` carries the actual configuration: 1152 × 648
screen, 160 × 112 ship, `ai_ship_speed = 1152 * 0.005 * 8`) never increases
the distance between the ship's vertical center and the screen midpoint,
strictly decreases it while outside the 15-unit patrol dead-zone, and some
number of ticks brings it inside the dead-zone. -/
theorem patrol_converges_to_midpoint (y : ℤ) (h0 : 0 ≤ y)
    (h1 : y + 112 ≤ 648) :
    |patrol_offset (quiet_tick (game_ship y))| ≤
      |patrol_offset (game_ship y)| ∧
    (15 < |patrol_offset (game_ship y)| →
      |patrol_offset (quiet_tick (game_ship y))| <
        |patrol_offset (game_ship y)|) ∧
    ∃ n : ℕ, |patrol_offset (quiet_tick^[n] (game_ship y))| ≤ 15 := by
  have h1' : y ≤ 536 := by omega
  have hiter : ∀ (n : ℕ) (z : ℤ),
      quiet_tick^[n] (game_ship z) = game_ship (next_y^[n] z) := by
    intro n
    induction n with
    | zero => intro z; rfl
    | succ n ihn =>
      intro z
      rw [Function.iterate_succ_apply, Function.iterate_succ_apply,
        quiet_tick_game_ship, ihn]
  have hcastabs : ∀ z : ℤ, |patrol_offset (game_ship z)| = ((|268 - z| : ℤ) : ℚ) := by
    intro z
    rw [patrol_offset_game_ship, Int.cast_abs]
  obtain ⟨hA, hB, _, _, _⟩ := next_y_spec y h0 h1'
  refine ⟨?_, ?_, ?_⟩
  · rw [quiet_tick_game_ship, hcastabs, hcastabs]
    exact_mod_cast hA
  · intro hlt
    rw [hcastabs] at hlt
    have hlt' : 15 < |268 - y| := by exact_mod_cast hlt
    rw [quiet_tick_game_ship, hcastabs, hcastabs]
    have := hB hlt'
    exact_mod_cast (by omega : |268 - next_y y| < |268 - y|)
  · obtain ⟨n, hn⟩ := next_y_reaches (268 - y).natAbs y h0 h1' le_rfl
    refine ⟨n, ?_⟩
    rw [hiter n y, hcastabs]
    exact_mod_cast hn

/-- C9 witness: from the top of the screen the first tick strictly shrinks
the distance to the midpoint. -/
theorem patrol_converges_to_midpoint_witness :
    15 < |patrol_offset (game_ship 0)| ∧
    |patrol_offset (quiet_tick (game_ship 0))| <
      |patrol_offset (game_ship 0)| := by
  have hoff : (15 : ℚ) < |patrol_offset (game_ship 0)| := by
    norm_num [patrol_offset, game_ship, Rect.centery]
  exact ⟨hoff,
    (patrol_converges_to_midpoint 0 (by norm_num) (by norm_num)).2.1 hoff⟩

end SpaceImpact
